import Mathlib

/-!
Verification development for the conversation translation client of the
cognitive-services speech SDK. The definitions below are a shallow embedding
of the TypeScript source files:

- ConversationImpl, the session facade (source file part_000);
- ConversationServiceAdapter, the connection lifecycle manager and protocol
  dispatcher (source file part_001);
- ConversationManager, the session directory client
  (src/common.speech/Transcription/ConversationManager.ts).

JavaScript values of type string-or-undefined are embedded as Option String
(none standing for both undefined and null). Methods that interact with a
caller through success and failure continuations are embedded as functions
returning the list of externally observable effects they perform, in order:
a failure continuation invocation, an outbound frame transmission, a
connection release. A thrown exception inside a method body is modelled by
cutting the control flow exactly where the source construct throws; every
command method of the facade wraps its body in a try block whose catch
routes the exception into the failure continuation, and the embedding
reproduces that routing.
-/

namespace SpeechSDK

/-- Truthiness of a JavaScript string-or-undefined value: undefined, null and
the empty string are falsy, every other string is truthy. -/
def jsTruthy : Option String → Bool
  | none => false
  | some s => s ≠ ""

/-- Modelled from the spec: Contracts.throwIfNullOrWhitespace (the Contracts
helper is not under src). It throws when the value is undefined or null, or
when the trimmed string is empty, that is when every character is
whitespace. The check is expressed over the character list of the string. -/
def isNullOrWhitespace : Option String → Bool
  | none => true
  | some s => s.data.all Char.isWhitespace

/-! ## Participant registry -/

/-- One participant record, mirroring the IInternalParticipant shape built by
the adapter and stored in the registry (part_001, lines 286 to 294). -/
structure IInternalParticipant where
  id : String
  displayName : String := ""
  avatar : String := ""
  isHost : Bool := false
  isMuted : Bool := false
  isUsingTts : Bool := false
  preferredLanguage : String := ""
deriving DecidableEq

/-- The in-memory participant registry: the list of participants together
with the stored id of the local participant (meId, assigned from the room
descriptor in startConversationAsync, part_000 line 207). -/
structure InternalParticipants where
  participants : List IInternalParticipant
  meId : String
deriving DecidableEq

/-- Modelled from the spec: the me accessor of InternalParticipants is not
under src; section 4.2 of the spec states that me looks up the participant
whose id equals the stored local id. -/
def InternalParticipants.me (ps : InternalParticipants) : Option IInternalParticipant :=
  ps.participants.find? (fun p => p.id == ps.meId)

/-! ## ConversationImpl: the session facade (source file part_000) -/

namespace ConversationImpl

/-- Embeds the nickname normalisation in the ConversationImpl constructor
(part_000, lines 149 to 153): the configured nickname is replaced by the
literal string Host when it is undefined, null, of length at most 1, or of
length greater than 50; otherwise it is stored back unchanged. -/
def resolveHostNickname (configured : Option String) : String :=
  match configured with
  | none => "Host"
  | some n => if n.length ≤ 1 || n.length > 50 then "Host" else n

/-- Embeds the isMutedByHost accessor (part_000, lines 99 to 101). The source
expression is a conditional on me.isHost with optional chaining: when the
local participant is present and a host the accessor yields the boolean
false; when present and not a host it yields the muted flag; when the local
participant is absent both optional chains yield undefined, embedded as
none. -/
def isMutedByHost (ps : InternalParticipants) : Option Bool :=
  match ps.me with
  | none => none
  | some m => if m.isHost then some false else some m.isMuted

/-- The recognizer handle held in privConversationRecognizer; the only
observable consulted by the command methods is its disposed flag. -/
structure RecognizerHandle where
  recognizerDisposed : Bool
deriving DecidableEq

/-- The fields of a ConversationImpl instance consulted by the embedded
methods. privRoom carries the session token when a room descriptor is
present; privConnectionPresent records whether
privConversationRecognizerConnection is assigned; privConfigPresent records
whether privConfig is assigned. -/
structure ConvState where
  privIsDisposed : Bool
  privRoom : Option String
  privConversationRecognizer : Option RecognizerHandle
  privConnectionPresent : Bool
  privIsConnected : Bool
  privParticipants : Option InternalParticipants
  privConfigPresent : Bool
deriving DecidableEq

/-- The kinds of error handed to the failure continuation. The concrete
message strings live in ConversationTranslatorConfig.strings, which is not
under src; each constructor stands for one distinct throw or handleError
site of the source. typeError stands for the JavaScript TypeError raised by
a member access on an undefined field. -/
inductive ConvErrorKind
  | objectDisposed
  | typeError
  | invalidArg (arg : String)
  | permissionDeniedSend
  | permissionDeniedConversation (command : String)
deriving DecidableEq

/-- Externally observable effects of a facade method, in program order. -/
inductive ConvEffect
  | errCont (kind : ConvErrorKind)
  | frameLock (lockState : Bool)
  | frameMessage (text : String)
  | configClosed
  | connectionClosed
deriving DecidableEq

/-- Modelled from the spec: the configured maximum text-message length
(ConversationTranslatorConfig.textMessageMaxLength is not under src; the
spec only requires a fixed maximum, so the particular value is irrelevant to
the theorems below, which quantify over the message). -/
def textMessageMaxLength : Nat := 1000

/-- Embeds the canSend permission gate (part_000, lines 783 to 785):
connected, and the local participant is not muted; an absent local
participant makes the optional chain yield undefined, whose negation is
true. -/
def canSend (s : ConvState) (ps : InternalParticipants) : Bool :=
  s.privIsConnected && !((ps.me.map IInternalParticipant.isMuted).getD false)

/-- Embeds the canSendAsHost permission gate (part_000, lines 787 to 789):
connected, and the local participant is a host; an absent local participant
makes the whole conjunction falsy. -/
def canSendAsHost (s : ConvState) (ps : InternalParticipants) : Bool :=
  s.privIsConnected && ((ps.me.map IInternalParticipant.isHost).getD false)

/-- The isDisposed method of ConversationImpl (part_000, lines 550 to 552),
which reads the privIsDisposed field. -/
def isDisposedMethod (s : ConvState) : Bool :=
  s.privIsDisposed

/-- Truthiness of the guard expression at part_000 line 555. The source
tests if open-paren this.isDisposed close-paren without calling the method:
the expression denotes the method itself, a function object, and a function
object is truthy in JavaScript, so the guard holds in every state. -/
def disposeGuard (_s : ConvState) : Bool :=
  true

/-- Embeds the body of dispose after the guard (part_000, lines 558 to 575):
mark disposed, close the config, close and release the connection when one
is present, and clear every field. The closeConnection and close calls on
the connection are recorded as one connectionClosed effect. -/
def disposeBody (s : ConvState) : ConvState × List ConvEffect :=
  ({ privIsDisposed := true
     privRoom := none
     privConversationRecognizer := none
     privConnectionPresent := false
     privIsConnected := false
     privParticipants := none
     privConfigPresent := false },
   (if s.privConfigPresent then [ConvEffect.configClosed] else []) ++
   (if s.privConnectionPresent then [ConvEffect.connectionClosed] else []))

/-- Embeds dispose (part_000, lines 554 to 576): when the guard expression is
truthy the method returns at once, leaving the state unchanged and
performing no effect; otherwise the body runs. -/
def dispose (s : ConvState) : ConvState × List ConvEffect :=
  if disposeGuard s then (s, []) else disposeBody s

/-- Embeds lockConversationAsync (part_000, lines 311 to 329). Control flow,
in source order: throwIfDisposed on privIsDisposed; the call
privConversationRecognizer.isDisposed, which raises a TypeError when the
recognizer field is undefined; throwIfDisposed on the recognizer flag;
throwIfNullOrUndefined on privRoom; the canSendAsHost gate, whose failure
invokes the failure continuation through handleError and then falls through
to the next statement because the source has no return there; finally
sendLockRequest transmits the lock frame. Every throw is converted by the
enclosing catch into a failure continuation invocation. -/
def lockConversationAsync (s : ConvState) : List ConvEffect :=
  if s.privIsDisposed then [ConvEffect.errCont ConvErrorKind.objectDisposed]
  else
    match s.privConversationRecognizer with
    | none => [ConvEffect.errCont ConvErrorKind.typeError]
    | some r =>
      if r.recognizerDisposed then [ConvEffect.errCont ConvErrorKind.objectDisposed]
      else
        match s.privRoom with
        | none => [ConvEffect.errCont ConvErrorKind.permissionDeniedSend]
        | some _ =>
          match s.privParticipants with
          | none => [ConvEffect.errCont ConvErrorKind.typeError]
          | some ps =>
            (if !(canSendAsHost s ps) then
              [ConvEffect.errCont (ConvErrorKind.permissionDeniedConversation "lock")]
            else []) ++ [ConvEffect.frameLock true]

/-- Embeds sendTextMessageAsync (part_000, lines 526 to 548). Control flow,
in source order: throwIfDisposed on privIsDisposed; the recognizer disposed
check, raising a TypeError when the recognizer field is undefined;
throwIfNullOrWhitespace on the message; throwIfNullOrUndefined on privRoom;
the canSend gate, whose failure invokes the failure continuation and falls
through; the maximum length check, whose failure likewise invokes the
failure continuation and falls through; finally sendMessageRequest transmits
the message frame. -/
def sendTextMessageAsync (s : ConvState) (message : Option String) : List ConvEffect :=
  if s.privIsDisposed then [ConvEffect.errCont ConvErrorKind.objectDisposed]
  else
    match s.privConversationRecognizer with
    | none => [ConvEffect.errCont ConvErrorKind.typeError]
    | some r =>
      if r.recognizerDisposed then [ConvEffect.errCont ConvErrorKind.objectDisposed]
      else if isNullOrWhitespace message then
        [ConvEffect.errCont (ConvErrorKind.invalidArg "message")]
      else
        match s.privRoom with
        | none => [ConvEffect.errCont ConvErrorKind.permissionDeniedSend]
        | some _ =>
          match s.privParticipants with
          | none => [ConvEffect.errCont ConvErrorKind.typeError]
          | some ps =>
            let msg := message.getD ""
            (if !(canSend s ps) then
              [ConvEffect.errCont ConvErrorKind.permissionDeniedSend]
            else []) ++
            (if msg.length > textMessageMaxLength then
              [ConvEffect.errCont (ConvErrorKind.invalidArg "message length")]
            else []) ++ [ConvEffect.frameMessage msg]

end ConversationImpl

/-! ## ConversationManager: the session directory client
(src/common.speech/Transcription/ConversationManager.ts) -/

namespace ConversationManager

/-- Modelled from the spec: ConversationConnectionConfig.defaultLanguageCode
is not under src; only its non-emptiness matters to the theorems below. -/
def defaultLanguageCode : String := "en-US"

/-- Modelled from the spec: ConversationConnectionConfig.host is not under
src; only its non-emptiness matters to the theorems below. -/
def defaultHost : String := "dev.microsofttranslator.com"

/-- The property values read from the PropertyCollection by createOrJoin
(ConversationManager.ts, lines 45 to 51), each a string-or-undefined. -/
structure ConversationProperties where
  recoLanguage : Option String
  name : Option String
  host : Option String
  correlationId : Option String
  subscriptionKey : Option String
  region : Option String
  authToken : Option String
deriving DecidableEq

/-- The authentication header attached to a create request: a subscription
key header or a bearer token header, mutually exclusive
(ConversationManager.ts, lines 73 to 79). -/
inductive AuthHeaderChoice
  | subscriptionKeyHeader (key : String)
  | bearer (token : String)
deriving DecidableEq

/-- The POST request issued by createOrJoin once every validation has
passed: the query parameters and headers it carries
(ConversationManager.ts, lines 57 to 88). -/
structure CreateJoinRequest where
  languageCode : String
  nickname : String
  endpointHost : String
  roomId : Option String
  regionHeader : Option String
  authHeader : Option AuthHeaderChoice
  correlationHeader : Option String
deriving DecidableEq

/-- Outcome of createOrJoin up to the network boundary: either a validation
failure delivered to the failure continuation before any request is issued
(the argument names the failing check), or the issued POST request. -/
inductive CreateJoinOutcome
  | configError (check : String)
  | requested (req : CreateJoinRequest)
deriving DecidableEq

/-- Embeds createOrJoin (ConversationManager.ts, lines 39 to 126) up to the
point where the POST request is handed to the transport. In source order:
resolve the language (defaulted), nickname (no default) and endpoint host
(defaulted) properties; throwIfNullOrWhitespace on each of the three; then
either attach the room code (join), or (create) throwIfNullOrUndefined on
the region, attach the region header, and pick the authentication header by
JavaScript truthiness, where an absent subscription key and absent auth
token ends in throwIfNullOrUndefined on the key, but an empty-string key
passes that null check and the request goes out with no auth header. Every
throw is converted by the enclosing catch into a failure continuation
invocation, embedded as configError. -/
def createOrJoin (args : ConversationProperties) (conversationCode : Option String) :
    CreateJoinOutcome :=
  let languageCode := args.recoLanguage.getD defaultLanguageCode
  let nickname := args.name
  let endpointHost := args.host.getD defaultHost
  if isNullOrWhitespace (some languageCode) then CreateJoinOutcome.configError "languageCode"
  else if isNullOrWhitespace nickname then CreateJoinOutcome.configError "nickname"
  else if isNullOrWhitespace (some endpointHost) then CreateJoinOutcome.configError "endpointHost"
  else
    let base : CreateJoinRequest :=
      { languageCode := languageCode
        nickname := nickname.getD ""
        endpointHost := endpointHost
        roomId := none
        regionHeader := none
        authHeader := none
        correlationHeader := args.correlationId }
    match conversationCode with
    | some code => CreateJoinOutcome.requested { base with roomId := some code }
    | none =>
      match args.region with
      | none => CreateJoinOutcome.configError "subscriptionRegion"
      | some region =>
        if jsTruthy args.subscriptionKey then
          CreateJoinOutcome.requested
            { base with
              regionHeader := some region
              authHeader := some (AuthHeaderChoice.subscriptionKeyHeader
                (args.subscriptionKey.getD "")) }
        else if jsTruthy args.authToken then
          CreateJoinOutcome.requested
            { base with
              regionHeader := some region
              authHeader := some (AuthHeaderChoice.bearer (args.authToken.getD "")) }
        else
          match args.subscriptionKey with
          | none => CreateJoinOutcome.configError "subscriptionKey"
          | some _ =>
            CreateJoinOutcome.requested { base with regionHeader := some region }

end ConversationManager

/-! ## ConversationServiceAdapter: connection lifecycle and protocol
dispatcher (source file part_001) -/

namespace ConversationServiceAdapter

/-- The connection states of the transport, as compared against by the
adapter (the ConnectionState enumeration of common/Exports is not under src;
the adapter only ever compares a state against Disconnected). -/
inductive ConnectionState
  | connecting
  | connected
  | disconnected
deriving DecidableEq

/-- What the adapter can observe of its cached connection promise when
conversationConnectImpl re-enters (part_001, lines 177 to 180): whether the
promise has completed, whether it completed in error, and the connection
state of its result when it completed successfully. -/
structure PromiseSnapshot where
  isCompleted : Bool
  isError : Bool
  connState : ConnectionState
deriving DecidableEq

/-- Embeds the discard condition of the connect guard (part_001, lines 178 to
180): the cached promise is completed, and either it is an error or its
connection reports the Disconnected state. -/
def connectionPromiseStale (p : PromiseSnapshot) : Bool :=
  p.isCompleted && (p.isError || p.connState == ConnectionState.disconnected)

/-- The snapshot of the connect promise assigned at part_001 line 201 while
its own continuation chain is still executing: not yet completed. -/
def pendingSnapshot : PromiseSnapshot :=
  { isCompleted := false, isError := false, connState := ConnectionState.connecting }

/-- Which credential fetch the adapter performs (part_001, line 199): the
plain fetch, or fetchOnExpiry, the forced refresh used when isUnAuthorized
is set. -/
inductive FetchKind
  | normal
  | onExpiry
deriving DecidableEq

/-- The credential returned by a successful fetch. -/
structure AuthInfo where
  token : String
deriving DecidableEq

/-- The response delivered by the transport when the socket open resolves;
per the external interface of the spec, open resolves with a status code and
a reason. -/
structure OpenResponse where
  statusCode : Nat
  reason : String

/-- The environment of a connect run: the outcome of each kind of credential
fetch, and the open response of the n-th physical connection created during
the run. -/
structure ConnEnv where
  auth : FetchKind → Except String AuthInfo
  openResponse : Nat → OpenResponse

/-- How the connect promise eventually settles. neverSettles records the
self-wait produced when the open continuation returns the very promise whose
settlement depends on that continuation: in the promise library of
common/Exports, a continuation chain completes only once the promise
returned by the continuation completes, so a promise chained to wait on
itself never settles. -/
inductive Settlement
  | opened
  | rejectedAuth (e : String)
  | rejectedStatus (status : Nat) (reason : String)
  | neverSettles
deriving DecidableEq

/-- The promise a call to conversationConnectImpl returns: either the cached
privConversationConnectionPromise object itself (the existing in-flight or
established connection), or a promise with the given settlement. -/
inductive ReturnedPromise
  | existing
  | settled (s : Settlement)
deriving DecidableEq

/-- Result of one call to conversationConnectImpl: the credential fetches the
call performs, in order, and the promise it returns. -/
structure CallResult where
  fetches : List FetchKind
  returned : ReturnedPromise
deriving DecidableEq

/-- Embeds conversationConnectImpl (part_001, lines 175 to 238), with the
cached privConversationConnectionPromise passed explicitly as a snapshot.
Lines 177 to 188: when a cached promise exists and is stale (completed in
error or disconnected) it is discarded and the call re-enters with no cached
promise and the default argument, isUnAuthorized false; otherwise the cached
promise itself is returned, with no fetch performed. Lines 190 to 237: with
no cached promise, the call performs one credential fetch, fetchOnExpiry
exactly when isUnAuthorized; an auth failure rejects the connect promise; on
success a connection is created and opened, status 200 resolves the promise
with the connection, status 403 on a non-refreshed attempt re-enters
conversationConnectImpl with isUnAuthorized true at a moment when the outer
connect promise of line 201 is assigned and still pending, and any other
status rejects the promise with the status and reason. When the re-entrant
call returns that pending outer promise, the open continuation resolves the
outer promise with itself, which never settles. -/
def conversationConnectImpl (env : ConnEnv) (isUnAuthorized : Bool)
    (cached : Option PromiseSnapshot) (connIdx : Nat) : CallResult :=
  match cached with
  | some snap =>
    if hstale : connectionPromiseStale snap then
      conversationConnectImpl env false none connIdx
    else
      { fetches := [], returned := ReturnedPromise.existing }
  | none =>
    let kind := if isUnAuthorized then FetchKind.onExpiry else FetchKind.normal
    match env.auth kind with
    | Except.error e =>
      { fetches := [kind], returned := ReturnedPromise.settled (Settlement.rejectedAuth e) }
    | Except.ok _ =>
      let response := env.openResponse connIdx
      if response.statusCode == 200 then
        { fetches := [kind], returned := ReturnedPromise.settled Settlement.opened }
      else if response.statusCode == 403 && !isUnAuthorized then
        let retry := conversationConnectImpl env true (some pendingSnapshot) (connIdx + 1)
        { fetches := kind :: retry.fetches
          returned :=
            match retry.returned with
            | ReturnedPromise.existing => ReturnedPromise.settled Settlement.neverSettles
            | ReturnedPromise.settled s => ReturnedPromise.settled s }
      else
        { fetches := [kind]
          returned := ReturnedPromise.settled
            (Settlement.rejectedStatus response.statusCode response.reason) }
termination_by
  (match cached with
   | none => 2
   | some snap => if connectionPromiseStale snap then 3 else 0 : Nat)
decreasing_by
  · simp [hstale]
  · simp [pendingSnapshot, connectionPromiseStale]

/-! ### The receive loop: speech frames (part_001, lines 529 to 566) -/

/-- The fields of SpeechResponsePayload consulted by the speech arm of the
receive loop. The fromJSON parser and the isFinal accessor live in
ServiceMessages, not under src; per the source comments, isFinal reports
whether the payload belongs to a finalized (final) rather than incremental
(partial) speech message. recognition is the recognized text, a
string-or-undefined; it becomes the text of the ConversationTranslationResult
built at lines 538 to 547. -/
structure SpeechResponsePayload where
  participantId : String
  language : String
  recognition : Option String
  isFinal : Bool
deriving DecidableEq

/-- The message kinds of ConversationTranslatorMessageTypes used to tag a
raised translation event. -/
inductive MessageKind
  | finalKind
  | partialKind
  | instantMessage
deriving DecidableEq

/-- An outward event raised by the adapter to its subscriber. -/
inductive AdapterEvent
  | translationReceived (kind : MessageKind) (text : Option String) (participantId : String)
deriving DecidableEq

/-- Lowercasing of a wire message type, embedding the JavaScript
toLowerCase call at part_001 line 267, expressed characterwise over the
character list of the string. -/
def toLowerCase (s : String) : String :=
  String.mk (s.data.map Char.toLower)

/-- Embeds the partial and final arm of receiveConversationMessageOverride
(part_001, lines 529 to 566), processing one inbound speech frame. The outer
switch enters this arm for the message types partial and final (lowercased).
When the payload is final, the translation-received event is raised only if
the recognized text is defined and non-empty, and only if a subscriber is
attached; an empty or undefined final is a no-op. When the payload is not
final, the event is raised unconditionally on the text, provided a
subscriber is attached. Frames of any other message type are not handled by
this arm. -/
def processSpeechMessage (hasSubscriber : Bool) (conversationMessageType : String)
    (payload : SpeechResponsePayload) : List AdapterEvent :=
  if toLowerCase conversationMessageType == "partial"
      || toLowerCase conversationMessageType == "final" then
    let text := payload.recognition
    if payload.isFinal then
      match text with
      | some t =>
        if t.length > 0 then
          if hasSubscriber then
            [AdapterEvent.translationReceived MessageKind.finalKind (some t) payload.participantId]
          else []
        else []
      | none => []
    else
      if hasSubscriber then
        [AdapterEvent.translationReceived MessageKind.partialKind text payload.participantId]
      else []
  else []

end ConversationServiceAdapter

/-! ## Concrete fixtures used by the theorems and witnesses -/

open ConversationImpl ConversationManager ConversationServiceAdapter

/-- A registry whose local participant is the host A. -/
def regHostA : InternalParticipants :=
  { participants :=
      [{ id := "A", displayName := "Alice", isHost := true },
       { id := "B", displayName := "Bob" }]
    meId := "A" }

/-- A registry whose local participant is the non-host B. -/
def regGuestB : InternalParticipants :=
  { participants :=
      [{ id := "A", displayName := "Alice", isHost := true },
       { id := "B", displayName := "Bob" }]
    meId := "B" }

/-- A registry whose stored local id matches no participant. -/
def regNoMe : InternalParticipants :=
  { participants := [{ id := "A", displayName := "Alice", isHost := true }]
    meId := "Z" }

/-- A live, ready ConversationImpl state: not disposed, a room descriptor and
recognizer present, the connection open, the local participant the host. -/
def hostReadyState : ConvState :=
  { privIsDisposed := false
    privRoom := some "session-token"
    privConversationRecognizer := some { recognizerDisposed := false }
    privConnectionPresent := true
    privIsConnected := true
    privParticipants := some regHostA
    privConfigPresent := true }

/-- The same live state with the non-host B as local participant. -/
def guestReadyState : ConvState :=
  { hostReadyState with privParticipants := some regGuestB }

/-- A message one character longer than the configured maximum. -/
def longMessage : String :=
  String.mk (List.replicate (ConversationImpl.textMessageMaxLength + 1) 'x')

/-- An environment in which every credential fetch succeeds and every socket
open resolves with status 403. -/
def env403 : ConnEnv :=
  { auth := fun _ => Except.ok { token := "credential" }
    openResponse := fun _ => { statusCode := 403, reason := "Forbidden" } }

/-- A snapshot of a completed, errored connect promise. -/
def staleSnapshot : PromiseSnapshot :=
  { isCompleted := true, isError := true, connState := ConnectionState.disconnected }

/-- Whether a createOrJoin outcome is a validation failure delivered before
any network request. -/
def ConversationManager.CreateJoinOutcome.isConfigError : CreateJoinOutcome → Bool
  | CreateJoinOutcome.configError _ => true
  | CreateJoinOutcome.requested _ => false

/-- Join settings whose nickname is a single space. -/
def argsWsNickname : ConversationProperties :=
  { recoLanguage := some "en-US", name := some " ", host := none,
    correlationId := none, subscriptionKey := some "key",
    region := some "westus", authToken := none }

/-- Create settings with no region configured. -/
def argsNoRegion : ConversationProperties :=
  { recoLanguage := some "en-US", name := some "Bob", host := none,
    correlationId := none, subscriptionKey := some "key",
    region := none, authToken := none }

/-! ## Helper lemmas -/

/-- A connect call that starts with no cached promise performs exactly one
credential fetch, the plain one: every branch of the fresh attempt, the 403
re-entry included, adds no further fetch. -/
theorem conversationConnectImpl_none_fetches (env : ConnEnv) (idx : Nat) :
    (conversationConnectImpl env false none idx).fetches = [FetchKind.normal] := by
  unfold conversationConnectImpl
  cases hauth : env.auth FetchKind.normal with
  | error e => simp [hauth]
  | ok a =>
    by_cases h200 : (env.openResponse idx).statusCode == 200
    · simp [hauth, h200]
    · by_cases h403 : (env.openResponse idx).statusCode == 403
      · unfold conversationConnectImpl
        simp [hauth, h200, h403, pendingSnapshot, connectionPromiseStale]
      · simp [hauth, h200, h403]

/-! ## Claim theorems -/

/-- C1. The claim states that a second dispose is a no-op while the first
dispose releases the connection handle. On the code the guard of dispose
tests the truthiness of the method reference, so already the first call to
dispose leaves the state untouched, performs no release, and never marks the
object disposed; the second call is a no-op only because every call is. The
theorem evaluates dispose at a live state holding an open connection: both
the first and the second call return the state unchanged with an empty
effect list, and the disposed flag stays false after the first call. -/
theorem dispose_first_call_already_noop :
    ConversationImpl.dispose hostReadyState = (hostReadyState, []) ∧
    ConversationImpl.dispose (ConversationImpl.dispose hostReadyState).1 =
      (hostReadyState, []) ∧
    (ConversationImpl.dispose hostReadyState).1.privIsDisposed = false :=
  ⟨rfl, rfl, rfl⟩

/-- C2. The claim states that a 403 open response on a first attempt triggers
exactly one retry of the connect sequence with a forced credential refresh,
and that a repeated 403 surfaces as a connection failure. On the code, the
re-entrant retry call finds the still pending outer connect promise and
returns that same promise, so the open continuation resolves the connect
promise with itself: the forced refresh fetchOnExpiry is never performed and
the attempt neither succeeds nor surfaces a failure. The theorem evaluates
the connect run in an environment whose first open response is 403: the only
credential fetch performed is the plain one, and the connect promise never
settles. -/
theorem connect403_never_retries :
    conversationConnectImpl env403 false none 0 =
      { fetches := [FetchKind.normal]
        returned := ReturnedPromise.settled Settlement.neverSettles } := by
  unfold conversationConnectImpl
  simp [env403]
  unfold conversationConnectImpl
  simp [pendingSnapshot, connectionPromiseStale]

/-- C3. The claim states that a non-host calling lockConversationAsync fails
with a permission error and that no lock frame is transmitted. On the code
the permission gate invokes the failure continuation through handleError and
then falls through, because the source has no return after the gate, so the
SetLockState frame is transmitted anyway. The theorem evaluates the method
at a connected non-host state: the failure continuation fires with the
permission error and the lock frame is still sent. -/
theorem lock_nonHost_still_transmits :
    ConversationImpl.lockConversationAsync guestReadyState =
      [ConvEffect.errCont (ConvErrorKind.permissionDeniedConversation "lock"),
       ConvEffect.frameLock true] :=
  rfl

set_option maxRecDepth 8000 in
/-- C4. The claim states that sendTextMessageAsync with a message longer than
the configured maximum fails with an argument error and transmits nothing.
On the code the length check invokes the failure continuation and then falls
through, because the source has no return after the check, so the message
frame is transmitted anyway. The theorem evaluates the method at a connected
state with a message one character over the maximum: the failure
continuation fires with the argument error and the message frame is still
sent. -/
theorem sendText_overlong_still_transmits :
    ConversationImpl.sendTextMessageAsync guestReadyState (some longMessage) =
      [ConvEffect.errCont (ConvErrorKind.invalidArg "message length"),
       ConvEffect.frameMessage longMessage] :=
  rfl

/-- C5. A final speech frame whose recognized text is empty or undefined
raises no translation-received event, while a partial frame always raises
one, also on empty text, provided a subscriber is attached; the suppression
of empty finals holds whether or not a subscriber is attached. -/
theorem speechFrame_final_empty_suppressed_partial_always :
    (∀ (hasSubscriber : Bool) (p : SpeechResponsePayload),
       p.isFinal = true →
       (p.recognition = none ∨ p.recognition = some "") →
       processSpeechMessage hasSubscriber "final" p = []) ∧
    (∀ p : SpeechResponsePayload,
       p.isFinal = false →
       processSpeechMessage true "partial" p =
         [AdapterEvent.translationReceived MessageKind.partialKind
           p.recognition p.participantId]) := by
  constructor
  · intro hasSubscriber p hf hr
    unfold processSpeechMessage
    rw [if_pos (by decide)]
    rcases hr with h | h <;> simp [hf, h]
  · intro p hf
    unfold processSpeechMessage
    rw [if_pos (by decide)]
    simp [hf]

/-- Witness for C5, at a final frame with empty text and a partial frame with
empty text. -/
theorem speechFrame_final_empty_suppressed_partial_always_witness :
    processSpeechMessage true "final"
      { participantId := "A", language := "en", recognition := some "", isFinal := true } = [] ∧
    processSpeechMessage true "partial"
      { participantId := "A", language := "en", recognition := some "", isFinal := false } =
      [AdapterEvent.translationReceived MessageKind.partialKind (some "") "A"] :=
  ⟨speechFrame_final_empty_suppressed_partial_always.1 true _ rfl (Or.inr rfl),
   speechFrame_final_empty_suppressed_partial_always.2 _ rfl⟩

/-- C6. The claim states that after dispose every command method fails fast
with a disposed-object error and performs no other action. On the code
dispose never marks the object disposed (its guard tests the truthiness of
the method reference), so a command issued after dispose behaves exactly as
before it: at a connected host state, lockConversationAsync transmits the
lock frame, and sendTextMessageAsync transmits the message frame, and
neither delivers a disposed-object error. -/
theorem commands_after_dispose_still_proceed :
    (ConversationImpl.dispose hostReadyState).1 = hostReadyState ∧
    ConversationImpl.lockConversationAsync (ConversationImpl.dispose hostReadyState).1 =
      [ConvEffect.frameLock true] ∧
    ConversationImpl.sendTextMessageAsync (ConversationImpl.dispose hostReadyState).1
        (some "hello") =
      [ConvEffect.frameMessage "hello"] :=
  ⟨rfl, rfl, rfl⟩

/-- C7. Whenever the resolved language, nickname or endpoint host is absent
or whitespace, or the call is a create (no room code) with an absent region,
createOrJoin fails with a configuration error before issuing any network
request: the outcome is a configError, and by construction a configError is
produced before the request value exists. -/
theorem createOrJoin_validates_before_request :
    ∀ (args : ConversationProperties) (code : Option String),
      (isNullOrWhitespace (some (args.recoLanguage.getD defaultLanguageCode)) = true ∨
       isNullOrWhitespace args.name = true ∨
       isNullOrWhitespace (some (args.host.getD defaultHost)) = true ∨
       (code = none ∧ args.region = none)) →
      (createOrJoin args code).isConfigError = true := by
  intro args code h
  by_cases hl : isNullOrWhitespace (some (args.recoLanguage.getD defaultLanguageCode)) = true
  · simp [ConversationManager.createOrJoin, hl,
      ConversationManager.CreateJoinOutcome.isConfigError]
  · by_cases hn : isNullOrWhitespace args.name = true
    · simp [ConversationManager.createOrJoin, hl, hn,
        ConversationManager.CreateJoinOutcome.isConfigError]
    · by_cases hh : isNullOrWhitespace (some (args.host.getD defaultHost)) = true
      · simp [ConversationManager.createOrJoin, hl, hn, hh,
          ConversationManager.CreateJoinOutcome.isConfigError]
      · rcases h with h | h | h | ⟨hc, hr⟩
        · exact absurd h hl
        · exact absurd h hn
        · exact absurd h hh
        · subst hc
          simp [ConversationManager.createOrJoin, hl, hn, hh, hr,
            ConversationManager.CreateJoinOutcome.isConfigError]

/-- Witness for C7: joining with a whitespace nickname, and creating with no
region, each fail before any request. -/
theorem createOrJoin_validates_before_request_witness :
    (createOrJoin argsWsNickname (some "room1")).isConfigError = true ∧
    (createOrJoin argsNoRegion none).isConfigError = true :=
  ⟨createOrJoin_validates_before_request argsWsNickname (some "room1")
      (Or.inr (Or.inl (by decide))),
   createOrJoin_validates_before_request argsNoRegion none
      (Or.inr (Or.inr (Or.inr ⟨rfl, rfl⟩)))⟩

/-- C8. When a connect call finds a cached connection promise that is not
stale (not completed in error and not disconnected), it returns that same
promise and performs no credential fetch, hence opens no second physical
connection; when the cached promise is stale it is discarded and the call
behaves as a fresh attempt, which performs a new credential fetch. -/
theorem conversationConnectImpl_coalesces (env : ConnEnv) (isU : Bool)
    (snap : PromiseSnapshot) (idx : Nat) :
    (connectionPromiseStale snap = false →
       conversationConnectImpl env isU (some snap) idx =
         { fetches := [], returned := ReturnedPromise.existing }) ∧
    (connectionPromiseStale snap = true →
       conversationConnectImpl env isU (some snap) idx =
         conversationConnectImpl env false none idx ∧
       (conversationConnectImpl env false none idx).fetches = [FetchKind.normal]) := by
  constructor
  · intro h
    unfold conversationConnectImpl
    simp [h]
  · intro h
    refine ⟨?_, conversationConnectImpl_none_fetches env idx⟩
    conv_lhs => rw [conversationConnectImpl.eq_def]
    simp [h]

/-- Witness for C8: a pending promise is returned as is with no fetch, and a
completed errored promise is discarded for a fresh attempt. -/
theorem conversationConnectImpl_coalesces_witness :
    conversationConnectImpl env403 false (some pendingSnapshot) 0 =
      { fetches := [], returned := ReturnedPromise.existing } ∧
    conversationConnectImpl env403 false (some staleSnapshot) 0 =
      conversationConnectImpl env403 false none 0 :=
  ⟨(conversationConnectImpl_coalesces env403 false pendingSnapshot 0).1 (by decide),
   ((conversationConnectImpl_coalesces env403 false staleSnapshot 0).2 (by decide)).1⟩

/-- C9. The constructor stores the literal nickname Host whenever the
configured nickname is undefined or null, of length at most 1, or of length
greater than 50, and keeps every nickname of length 2 through 50
unchanged. -/
theorem resolveHostNickname_spec :
    resolveHostNickname none = "Host" ∧
    (∀ s : String, s.length ≤ 1 ∨ s.length > 50 →
       resolveHostNickname (some s) = "Host") ∧
    (∀ s : String, 2 ≤ s.length → s.length ≤ 50 →
       resolveHostNickname (some s) = s) := by
  refine ⟨rfl, ?_, ?_⟩
  · intro s h
    simp only [ConversationImpl.resolveHostNickname]
    split
    · rfl
    · rename_i hcond
      simp only [Bool.or_eq_true, decide_eq_true_eq, not_or] at hcond
      omega
  · intro s h1 h2
    simp only [ConversationImpl.resolveHostNickname]
    split
    · rename_i hcond
      simp only [Bool.or_eq_true, decide_eq_true_eq] at hcond
      omega
    · rfl

/-- Witness for C9: a one-character nickname and a fifty-one-character
nickname are replaced, a five-character nickname is kept. -/
theorem resolveHostNickname_spec_witness :
    resolveHostNickname (some "x") = "Host" ∧
    resolveHostNickname (some (String.mk (List.replicate 51 'x'))) = "Host" ∧
    resolveHostNickname (some "Alice") = "Alice" :=
  ⟨resolveHostNickname_spec.2.1 "x" (Or.inl (by decide)),
   resolveHostNickname_spec.2.1 _ (Or.inr (by decide)),
   resolveHostNickname_spec.2.2 "Alice" (by decide) (by decide)⟩

/-- C10. When the local participant is present in the registry and is the
host, isMutedByHost yields false regardless of the muted flag; when the
local participant is absent, isMutedByHost yields the undefined value,
which is not true. -/
theorem isMutedByHost_spec :
    (∀ (ps : InternalParticipants) (m : IInternalParticipant),
       ps.me = some m → m.isHost = true →
       ConversationImpl.isMutedByHost ps = some false) ∧
    (∀ ps : InternalParticipants, ps.me = none →
       ConversationImpl.isMutedByHost ps ≠ some true) := by
  constructor
  · intro ps m hm hh
    unfold ConversationImpl.isMutedByHost
    rw [hm]
    simp [hh]
  · intro ps h
    unfold ConversationImpl.isMutedByHost
    rw [h]
    simp

/-- Witness for C10: the host registry yields false even with a muted host
record, and a registry without the local participant does not yield true. -/
theorem isMutedByHost_spec_witness :
    ConversationImpl.isMutedByHost regHostA = some false ∧
    ConversationImpl.isMutedByHost regNoMe ≠ some true :=
  ⟨isMutedByHost_spec.1 regHostA
      { id := "A", displayName := "Alice", isHost := true } rfl rfl,
   isMutedByHost_spec.2 regNoMe rfl⟩

end SpeechSDK
